import Mathlib

/-!
# Business Rules Validation Engine — shallow embedding

Shallow embedding of the catering-order business-rules validator
(`src/business/standards.py`, `src/business/validators.py`,
`src/business/rules.py`).

Modelling conventions:
* Python numbers (`int`/`float`) are modelled as `Int` / `ℚ`; `/` on order
  totals is exact rational division (the spec describes real division; no
  claim depends on binary floating-point rounding).
* Python's `order_data.get(..., default)` chains are modelled by a typed
  `Order` record whose fields carry the code's defaults; a missing field is
  the same as a field holding the default, exactly as in the code.
* Findings (`ValidationResult`) are modelled by their `level`, `field`,
  `recommendation` and `reference_case` components.  The human-readable
  `message` string (Russian text with `:.0f` / `:,` number formatting) is
  not modelled: no claim mentions message contents.
* `TimingValidator` reads the wall clock (`datetime.now()`); the embedding
  passes the sampled time `now` (in hours) explicitly.  The outcome of
  `datetime.strptime(date, '%Y-%m-%d')` on the `date` string is modelled by
  a `DateField` value (absent/falsy, unparseable, or parsed to an event
  timestamp in hours); no claim depends on calendar arithmetic itself.
* Dynamic-typing exceptions inside a validator cannot occur in the typed
  embedding; the aggregator's `try/except` boundary is modelled by
  `validateOrderAux` over `Except String (List ValidationResult)`, whose
  `.error` branch is the code's `except Exception` branch.
-/

/-- `ValidationLevel` from `standards.py` (a `str` enum with four members). -/
inductive ValidationLevel where
  | info
  | warning
  | error
  | critical
deriving DecidableEq, Repr

/-- The string value of a `ValidationLevel` (the enum is a `str` subclass). -/
def ValidationLevel.toKey : ValidationLevel → String
  | .info => "info"
  | .warning => "warning"
  | .error => "error"
  | .critical => "critical"

/-- `ValidationResult` dataclass from `standards.py`, minus the unmodelled
`message` text.  `recommendation` and `reference_case` default to `None`. -/
structure ValidationResult where
  level : ValidationLevel
  field : String
  recommendation : Option String := none
  reference_case : Option String := none
deriving DecidableEq, Repr

/-- One entry of `BusinessStandards.PORTION_STANDARDS`. -/
structure PortionStd where
  min : Int
  max : Int
  optimal : Int
deriving DecidableEq, Repr

/-- One entry of `BusinessStandards.COST_PER_GUEST_RANGES`. -/
structure CostRange where
  min : Int
  max : Int
deriving DecidableEq, Repr

namespace BusinessStandards

/-- `MIN_ORDER_AMOUNT = 10000`. -/
def MIN_ORDER_AMOUNT : ℚ := 10000

/-- The `'buffet'` row of `PORTION_STANDARDS` (also the fallback row). -/
def buffetPortion : PortionStd := ⟨250, 423, 335⟩

/-- `PORTION_STANDARDS` dictionary. -/
def PORTION_STANDARDS : List (String × PortionStd) :=
  [("coffee_break", ⟨250, 300, 275⟩),
   ("buffet", buffetPortion),
   ("banquet", ⟨600, 1000, 800⟩)]

/-- `WAITER_RATIO_SIMPLE = 30` (guests per waiter, simple events). -/
def WAITER_RATIO_SIMPLE : Int := 30

/-- `WAITER_RATIO_COMPLEX = 15` (guests per waiter, complex events). -/
def WAITER_RATIO_COMPLEX : Int := 15

/-- `TIMING_REQUIREMENTS` hour thresholds. -/
def TIMING_no_service : Int := 24

/-- `TIMING_REQUIREMENTS['service_standard']`. -/
def TIMING_service_standard : Int := 48

/-- `TIMING_REQUIREMENTS['service_premium']`. -/
def TIMING_service_premium : Int := 72

/-- The `'buffet'` row of `COST_PER_GUEST_RANGES` (also the fallback row). -/
def buffetCostRange : CostRange := ⟨2300, 3300⟩

/-- `COST_PER_GUEST_RANGES` dictionary. -/
def COST_PER_GUEST_RANGES : List (String × CostRange) :=
  [("coffee_break", ⟨1150, 1700⟩),
   ("buffet", buffetCostRange),
   ("banquet", ⟨4700, 8600⟩)]

end BusinessStandards

/-- `PORTION_STANDARDS.get(event_type, PORTION_STANDARDS['buffet'])`. -/
def portionStandardFor (event_type : String) : PortionStd :=
  (BusinessStandards.PORTION_STANDARDS.lookup event_type).getD
    BusinessStandards.buffetPortion

/-- `COST_PER_GUEST_RANGES.get(event_type, COST_PER_GUEST_RANGES['buffet'])`. -/
def costRangeFor (event_type : String) : CostRange :=
  (BusinessStandards.COST_PER_GUEST_RANGES.lookup event_type).getD
    BusinessStandards.buffetCostRange

/-- One entry of the order's `services` list: `name` and `quantity`
(`service.get('quantity', 0)` defaults to 0). -/
structure Service where
  name : String
  quantity : Int := 0
deriving DecidableEq, Repr

/-- One entry of `menu_items`: only `category` is read by the engine
(`item.get('category', 'unknown')` defaults to `"unknown"`). -/
structure MenuItem where
  category : String := "unknown"
deriving DecidableEq, Repr

/-- The `order_info.date` string as seen by `TimingValidator`:
absent (or falsy, e.g. `None`/`""`), present but rejected by
`datetime.strptime(date, '%Y-%m-%d')`, or parsed — in which case the event
midnight is carried as a timestamp in hours. -/
inductive DateField where
  | missing
  | invalid
  | parsed (eventHours : ℚ)
deriving DecidableEq, Repr

/-- The order dictionary, as the fields the engine reads, with the code's
defaults for absent fields. -/
structure Order where
  guests : Int := 0
  event_type : String := "buffet"
  date : DateField := .missing
  total_weight : ℚ := 0
  total_cost : ℚ := 0
  menu_items : List MenuItem := []
  services : List Service := []
deriving DecidableEq, Repr

/-- Python `str.lower`, restricted to the alphabets this codebase uses:
ASCII `A`–`Z` and Cyrillic `А`–`Я` / `Ё`. -/
def pyLowerChar (c : Char) : Char :=
  if 65 ≤ c.toNat ∧ c.toNat ≤ 90 then Char.ofNat (c.toNat + 32)
  else if 0x410 ≤ c.toNat ∧ c.toNat ≤ 0x42F then Char.ofNat (c.toNat + 32)
  else if c.toNat = 0x401 then Char.ofNat 0x451
  else c

/-- Python `str.lower` on a string. -/
def pyLower (s : String) : String := String.mk (s.data.map pyLowerChar)

/-- Does the list start with the given pattern? (helper for substring). -/
def listStartsWith : List Char → List Char → Bool
  | _, [] => true
  | [], _ :: _ => false
  | a :: as, b :: bs => a == b && listStartsWith as bs

/-- Does `s` contain `pat` as a contiguous sublist? (Python `pat in s`). -/
def listHasSub (s pat : List Char) : Bool :=
  match s with
  | [] => pat.isEmpty
  | a :: t => listStartsWith (a :: t) pat || listHasSub t pat

/-- Python's `pat in s` substring test on strings. -/
def strContains (s pat : String) : Bool := listHasSub s.data pat.data

namespace PortionValidator

/-- The `guests <= 0` ERROR finding of `PortionValidator.validate`. -/
def guestsErrorFinding : ValidationResult :=
  { level := .error, field := "guests",
    recommendation := some "Укажите корректное количество гостей" }

/-- The `grams_per_guest < 250` CRITICAL finding. -/
def portionCriticalFinding : ValidationResult :=
  { level := .critical, field := "portion_size",
    recommendation := some "Увеличьте количество блюд минимум до 250г на гостя" }

/-- The `grams_per_guest > 750` WARNING finding. -/
def portionTooMuchFinding : ValidationResult :=
  { level := .warning, field := "portion_size",
    recommendation := some "Рассмотрите возможность уменьшения порций" }

/-- The in-standard-range INFO finding (carries the `P-39454` reference case). -/
def portionInfoFinding : ValidationResult :=
  { level := .info, field := "portion_size",
    recommendation := some "Граммовка соответствует стандартам",
    reference_case := some "P-39454" }

/-- Recommendation text of the out-of-standard-range WARNING:
`f"Оптимальный диапазон: {standards['min']}-{standards['max']}г"`. -/
def portionRangeRec (std : PortionStd) : String :=
  "Оптимальный диапазон: " ++ toString std.min ++ "-" ++ toString std.max ++ "г"

/-- The out-of-standard-range WARNING finding. -/
def portionRangeWarningFinding (std : PortionStd) : ValidationResult :=
  { level := .warning, field := "portion_size",
    recommendation := some (portionRangeRec std) }

/-- `PortionValidator.validate` from `validators.py`. -/
def validate (o : Order) : List ValidationResult :=
  if o.guests ≤ 0 then
    [guestsErrorFinding]
  else
    let grams_per_guest : ℚ := o.total_weight / (o.guests : ℚ)
    let standards := portionStandardFor o.event_type
    if grams_per_guest < 250 then
      [portionCriticalFinding]
    else if grams_per_guest > 750 then
      [portionTooMuchFinding]
    else if (standards.min : ℚ) ≤ grams_per_guest ∧ grams_per_guest ≤ (standards.max : ℚ) then
      [portionInfoFinding]
    else
      [portionRangeWarningFinding standards]

end PortionValidator

namespace CostValidator

/-- The below-minimum-order ERROR finding; its recommendation is
`f"Увеличьте заказ до {MIN_ORDER_AMOUNT:,}₽"` with the constant rendered
as Python does (`10,000`). -/
def costMinErrorFinding : ValidationResult :=
  { level := .error, field := "total_cost",
    recommendation := some "Увеличьте заказ до 10,000₽" }

/-- Recommendation of the too-low cost-per-guest WARNING:
`f"Ожидаемый диапазон: {r['min']:,}-{r['max']:,}₽"`; the ranges in the
standards table are 4-digit integers, so `:,` inserts one comma. -/
def commaInt (n : Int) : String :=
  if n ≥ 1000 ∧ n < 1000000 then
    let q := n / 1000
    let r := (n % 1000).toNat
    let rs := toString r
    let pad := if r < 10 then "00" else if r < 100 then "0" else ""
    toString q ++ "," ++ pad ++ rs
  else toString n

/-- The too-low cost-per-guest WARNING finding. -/
def costLowFinding (r : CostRange) : ValidationResult :=
  { level := .warning, field := "cost_per_guest",
    recommendation :=
      some ("Ожидаемый диапазон: " ++ commaInt r.min ++ "-" ++ commaInt r.max ++ "₽") }

/-- The too-high cost-per-guest WARNING finding. -/
def costHighFinding : ValidationResult :=
  { level := .warning, field := "cost_per_guest",
    recommendation := some "Проверьте корректность расчета" }

/-- The cost-approved INFO finding. -/
def costInfoFinding : ValidationResult :=
  { level := .info, field := "total_cost",
    recommendation := some "Стоимость в пределах нормы" }

/-- `CostValidator.validate` from `validators.py`.  `0.7` and `1.5` are the
exact rationals `7/10` and `3/2` (Python multiplies by float literals;
no claim touches the boundary where binary rounding could differ). -/
def validate (o : Order) : List ValidationResult :=
  if o.total_cost < BusinessStandards.MIN_ORDER_AMOUNT then
    [costMinErrorFinding]
  else if o.guests > 0 then
    let cost_per_guest : ℚ := o.total_cost / (o.guests : ℚ)
    let cost_range := costRangeFor o.event_type
    if cost_per_guest < (cost_range.min : ℚ) * (7/10) then
      [costLowFinding cost_range]
    else if cost_per_guest > (cost_range.max : ℚ) * (3/2) then
      [costHighFinding]
    else
      [costInfoFinding]
  else
    []

end CostValidator

namespace ServiceValidator

/-- The waiter-count accumulation loop: sum `quantity` over services whose
lower-cased name contains `'официант'`. -/
def waiterCount (services : List Service) : Int :=
  services.foldl
    (fun acc s =>
      if strContains (pyLower s.name) "официант" then acc + s.quantity else acc)
    0

/-- The too-few-waiters WARNING finding
(`f"Рекомендуем минимум {min_waiters} официант(ов)"`). -/
def waiterFewFinding (min_waiters : Int) : ValidationResult :=
  { level := .warning, field := "waiter_count",
    recommendation := some ("Рекомендуем минимум " ++ toString min_waiters ++ " официант(ов)") }

/-- The too-many-waiters WARNING finding
(`f"Оптимальное количество: {min_waiters}-{max_waiters}"`). -/
def waiterManyFinding (min_waiters max_waiters : Int) : ValidationResult :=
  { level := .warning, field := "waiter_count",
    recommendation :=
      some ("Оптимальное количество: " ++ toString min_waiters ++ "-" ++ toString max_waiters) }

/-- The optimal-staffing INFO finding. -/
def waiterOkFinding : ValidationResult :=
  { level := .info, field := "waiter_count",
    recommendation := some "Персонал соответствует требованиям" }

/-- `ServiceValidator.validate` from `validators.py`.  Python `//` is floor
division, i.e. `Int.fdiv`. -/
def validate (o : Order) : List ValidationResult :=
  let waiter_count := waiterCount o.services
  if waiter_count > 0 then
    let min_waiters := max 1 (Int.fdiv o.guests BusinessStandards.WAITER_RATIO_SIMPLE)
    let max_waiters := max 2 (Int.fdiv o.guests BusinessStandards.WAITER_RATIO_COMPLEX)
    if waiter_count < min_waiters then
      [waiterFewFinding min_waiters]
    else if waiter_count > max_waiters then
      [waiterManyFinding min_waiters max_waiters]
    else
      [waiterOkFinding]
  else
    []

end ServiceValidator

namespace TimingValidator

/-- The invalid-date-format ERROR finding (the `except ValueError` branch). -/
def badDateFinding : ValidationResult :=
  { level := .error, field := "event_date",
    recommendation := some "Используйте формат YYYY-MM-DD" }

/-- The insufficient-lead-time WARNING finding
(`f"Рекомендуем заказывать за {required_hours} часов"`). -/
def timingWarnFinding (required_hours : Int) : ValidationResult :=
  { level := .warning, field := "timing",
    recommendation := some ("Рекомендуем заказывать за " ++ toString required_hours ++ " часов") }

/-- The sufficient-lead-time INFO finding. -/
def timingOkFinding : ValidationResult :=
  { level := .info, field := "timing",
    recommendation := some "Временные требования соблюдены" }

/-- `TimingValidator.validate` from `validators.py`.  `now` is the sampled
wall-clock time in hours; `hours_until_event` is the difference in hours. -/
def validate (now : ℚ) (o : Order) : List ValidationResult :=
  match o.date with
  | .missing => []
  | .invalid => [badDateFinding]
  | .parsed eventHours =>
      let hours_until_event := eventHours - now
      let required_hours : Int :=
        if o.services.length > 0 then
          if o.total_cost > 60000 then BusinessStandards.TIMING_service_premium
          else BusinessStandards.TIMING_service_standard
        else BusinessStandards.TIMING_no_service
      if hours_until_event < (required_hours : ℚ) then
        [timingWarnFinding required_hours]
      else
        [timingOkFinding]

end TimingValidator

namespace MenuValidator

/-- The empty-menu ERROR finding. -/
def emptyMenuFinding : ValidationResult :=
  { level := .error, field := "menu_items",
    recommendation := some "Добавьте блюда в заказ" }

/-- The low-variety WARNING finding. -/
def lowVarietyFinding : ValidationResult :=
  { level := .warning, field := "menu_composition",
    recommendation := some "Добавьте блюда из разных категорий" }

/-- The good-variety INFO finding. -/
def varietyInfoFinding : ValidationResult :=
  { level := .info, field := "menu_composition",
    recommendation := some "Хорошее разнообразие блюд" }

/-- `MenuValidator.validate` from `validators.py`: the Python `set` of
categories is modelled by `List.dedup` (only its size is used). -/
def validate (o : Order) : List ValidationResult :=
  if o.menu_items.isEmpty then
    [emptyMenuFinding]
  else
    let categories := (o.menu_items.map MenuItem.category).dedup
    if categories.length < 2 then
      [lowVarietyFinding]
    else
      [varietyInfoFinding]

end MenuValidator

namespace BusinessRulesEngine

/-- The fixed validator run of `BusinessRulesEngine.validate_order`:
Portion, Cost, Service, Timing, Menu, findings concatenated in order. -/
def runValidators (now : ℚ) (o : Order) : List ValidationResult :=
  PortionValidator.validate o ++ CostValidator.validate o ++
    ServiceValidator.validate o ++ TimingValidator.validate now o ++
    MenuValidator.validate o

/-- The `critical_warnings` field set of `_determine_overall_status`. -/
def criticalWarningFields : List String := ["portion_size", "total_cost", "waiter_count"]

/-- `BusinessRulesEngine._determine_overall_status` from `rules.py`. -/
def determine_overall_status (validations : List ValidationResult) : String :=
  if validations.any (fun v => v.level == ValidationLevel.critical) then "critical"
  else if validations.any (fun v => v.level == ValidationLevel.error) then "error"
  else if validations.any (fun v => v.level == ValidationLevel.warning) then
    let warning_fields :=
      (validations.filter (fun v => v.level == ValidationLevel.warning)).map
        ValidationResult.field
    if warning_fields.any (fun f => criticalWarningFields.contains f) then "warning"
    else "valid"
  else "valid"

/-- Count of findings at one level (one counter of `_count_by_level`). -/
def countLevel (l : ValidationLevel) (validations : List ValidationResult) : Nat :=
  (validations.filter (fun v => v.level == l)).length

/-- `BusinessRulesEngine._count_by_level` from `rules.py`: the counts dict is
initialised with all four keys at 0 and incremented per finding; its final
value is the four keys, in insertion order, with the per-level counts. -/
def count_by_level (validations : List ValidationResult) : List (String × Nat) :=
  [("info", countLevel .info validations),
   ("warning", countLevel .warning validations),
   ("error", countLevel .error validations),
   ("critical", countLevel .critical validations)]

/-- Python truthiness of the `recommendation` field
(`if validation.recommendation:` — `None` and `""` are falsy). -/
def pyTruthy : Option String → Bool
  | none => false
  | some s => !(s == "")

/-- First loop of `_generate_recommendations`: append the recommendation of
every CRITICAL/ERROR finding (when truthy) to the accumulator. -/
def recsPhase1 : List ValidationResult → List String → List String
  | [], acc => acc
  | v :: vs, acc =>
      recsPhase1 vs
        (if (v.level == ValidationLevel.critical || v.level == ValidationLevel.error)
            && pyTruthy v.recommendation
         then acc ++ [v.recommendation.getD ""] else acc)

/-- Second loop of `_generate_recommendations`: append the recommendation of
every WARNING finding (when truthy) that is not already in the list. -/
def recsPhase2 : List ValidationResult → List String → List String
  | [], acc => acc
  | v :: vs, acc =>
      recsPhase2 vs
        (if v.level == ValidationLevel.warning && pyTruthy v.recommendation
            && !(acc.contains (v.recommendation.getD ""))
         then acc ++ [v.recommendation.getD ""] else acc)

/-- The `recommendations` list before the final `[:5]` truncation. -/
def preTruncationRecs (validations : List ValidationResult) : List String :=
  recsPhase2 validations (recsPhase1 validations [])

/-- `BusinessRulesEngine._generate_recommendations` from `rules.py`
(`return recommendations[:5]`). -/
def generate_recommendations (validations : List ValidationResult) : List String :=
  (preTruncationRecs validations).take 5

/-- The `summary` object of a Report. -/
structure Summary where
  total_validations : Nat
  by_level : List (String × Nat)
deriving DecidableEq, Repr

/-- The Report returned by `validate_order`. -/
structure Report where
  overall_status : String
  validations : List ValidationResult
  summary : Summary
  recommendations : List String
deriving DecidableEq, Repr

/-- The Report built by the `except Exception` branch of `validate_order`
(its message interpolates `str(e)`, not modelled; level `"error"`, field
`"system"`, `by_level` is the literal `{"error": 1}`). -/
def degenerateReport : Report :=
  { overall_status := "error",
    validations := [{ level := .error, field := "system",
                      recommendation := some "Проверьте корректность данных" }],
    summary := { total_validations := 1, by_level := [("error", 1)] },
    recommendations := ["Исправьте ошибки в данных заказа"] }

/-- The `try/except` body of `validate_order`: given the outcome of running
the validators (normal finding list, or a raised exception), build the
Report.  The `.error` branch is the `except Exception` handler. -/
def validateOrderAux : Except String (List ValidationResult) → Report
  | .ok vs =>
      { overall_status := determine_overall_status vs,
        validations := vs,
        summary := { total_validations := vs.length, by_level := count_by_level vs },
        recommendations := generate_recommendations vs }
  | .error _ => degenerateReport

/-- `BusinessRulesEngine.validate_order` from `rules.py` (typed inputs run
the validators without raising; `async` is irrelevant — the body awaits
nothing). -/
def validate_order (now : ℚ) (o : Order) : Report :=
  validateOrderAux (Except.ok (runValidators now o))

end BusinessRulesEngine

open BusinessRulesEngine

/-- Sum of the per-level counters of a `by_level` mapping. -/
def sumByLevel (by_level : List (String × Nat)) : Nat :=
  (by_level.map Prod.snd).sum

lemma countLevel_partition (vs : List ValidationResult) :
    countLevel .info vs + countLevel .warning vs + countLevel .error vs +
      countLevel .critical vs = vs.length := by
  induction vs with
  | nil => rfl
  | cons v vs ih =>
    cases hl : v.level <;>
      simp only [countLevel, List.filter_cons, hl] <;>
      simp_all [countLevel] <;> omega

/-- C1: the aggregator's exception boundary — whatever exception a validator
raises, the handler branch of `validate_order` returns the well-formed
degenerate Report with `overall_status = "error"` and exactly one finding,
at level ERROR with field `"system"`.  (The embedding of `validate_order`
is a total function, so the engine itself never raises.) -/
theorem c1_exception_boundary (e : String) :
    (validateOrderAux (Except.error e)).overall_status = "error" ∧
    (validateOrderAux (Except.error e)).validations.length = 1 ∧
    ∀ v ∈ (validateOrderAux (Except.error e)).validations,
      v.level = ValidationLevel.error ∧ v.field = "system" := by
  refine ⟨rfl, rfl, ?_⟩
  intro v hv
  simp only [validateOrderAux, degenerateReport, List.mem_singleton] at hv
  subst hv
  exact ⟨rfl, rfl⟩

/-- C5 counterexample: the degenerate Report produced when a validator
raises has `by_level = {"error": 1}` — the keys `info`, `warning` and
`critical` are absent, contradicting the claim that every returned Report
carries all four levels as keys. -/
theorem c5_counterexample :
    (validateOrderAux (Except.error "boom")).summary.by_level.lookup "info" = none ∧
    (validateOrderAux (Except.error "boom")).summary.by_level.lookup "warning" = none ∧
    (validateOrderAux (Except.error "boom")).summary.by_level.lookup "critical" = none ∧
    (validateOrderAux (Except.error "boom")).summary.by_level = [("error", 1)] := by
  refine ⟨?_, ?_, ?_, rfl⟩ <;> rfl

/-- C5 amended: for every order processed without an internal exception the
Report's `by_level` carries exactly the four level keys (in the order
info, warning, error, critical), each mapped to its count — 0 when the
level has no finding; the degenerate exception Report instead carries the
single key `"error"` with count 1. -/
theorem c5_by_level_keys (now : ℚ) (o : Order) (e : String) :
    (validate_order now o).summary.by_level.map Prod.fst =
      ["info", "warning", "error", "critical"] ∧
    (∀ l : ValidationLevel,
      (validate_order now o).summary.by_level.lookup l.toKey =
        some (countLevel l (runValidators now o))) ∧
    (validateOrderAux (Except.error e)).summary.by_level = [("error", 1)] := by
  refine ⟨rfl, ?_, rfl⟩
  intro l
  cases l <;> rfl

/-- C6: in every Report built by the aggregator — the normal branch of
`validate_order` on any order, and the exception branch alike —
`summary.total_validations` equals the length of `validations`, and the
`by_level` counts sum to `total_validations`. -/
theorem c6_summary_consistency (run : Except String (List ValidationResult)) :
    (validateOrderAux run).summary.total_validations =
      (validateOrderAux run).validations.length ∧
    sumByLevel (validateOrderAux run).summary.by_level =
      (validateOrderAux run).summary.total_validations := by
  cases run with
  | error e => exact ⟨rfl, rfl⟩
  | ok vs =>
    refine ⟨rfl, ?_⟩
    show sumByLevel (count_by_level vs) = vs.length
    have h := countLevel_partition vs
    simp only [sumByLevel, count_by_level, List.map_cons, List.map_nil, List.sum_cons,
      List.sum_nil]
    omega

/-- C8: `CostValidator` with `total_cost` below the 10000 minimum emits
exactly the one ERROR finding on `"total_cost"` and stops (no per-guest
check); with `total_cost` at or above the minimum but `guests ≤ 0` it
emits nothing at all. -/
theorem c8_cost_minimum (o : Order) :
    (o.total_cost < BusinessStandards.MIN_ORDER_AMOUNT →
      CostValidator.validate o = [CostValidator.costMinErrorFinding]) ∧
    (BusinessStandards.MIN_ORDER_AMOUNT ≤ o.total_cost → o.guests ≤ 0 →
      CostValidator.validate o = []) := by
  constructor
  · intro h
    simp only [CostValidator.validate, if_pos h]
  · intro h hg
    simp only [CostValidator.validate, if_neg (not_lt.mpr h), if_neg (not_lt.mpr hg)]

/-- C8 witness: a 8000-cost order trips the minimum-order ERROR; a
20000-cost order with the default 0 guests yields no cost finding. -/
theorem c8_cost_minimum_witness :
    CostValidator.validate { total_cost := 8000 } = [CostValidator.costMinErrorFinding] ∧
    CostValidator.validate { total_cost := 20000 } = [] :=
  ⟨(c8_cost_minimum { total_cost := 8000 }).1 (by norm_num [BusinessStandards.MIN_ORDER_AMOUNT]),
   (c8_cost_minimum { total_cost := 20000 }).2
     (by norm_num [BusinessStandards.MIN_ORDER_AMOUNT]) (by decide)⟩

/-- C9: `ServiceValidator` emits nothing when the summed waiter count is 0,
and with a positive waiter count emits exactly one `"waiter_count"`
finding: WARNING when below `max 1 (guests.fdiv 30)`, WARNING when above
`max 2 (guests.fdiv 15)`, INFO otherwise. -/
theorem c9_service_staffing (o : Order) :
    (ServiceValidator.waiterCount o.services = 0 →
      ServiceValidator.validate o = []) ∧
    (0 < ServiceValidator.waiterCount o.services →
      ServiceValidator.validate o =
        [ if ServiceValidator.waiterCount o.services <
              max 1 (Int.fdiv o.guests BusinessStandards.WAITER_RATIO_SIMPLE) then
            ServiceValidator.waiterFewFinding
              (max 1 (Int.fdiv o.guests BusinessStandards.WAITER_RATIO_SIMPLE))
          else if max 2 (Int.fdiv o.guests BusinessStandards.WAITER_RATIO_COMPLEX) <
              ServiceValidator.waiterCount o.services then
            ServiceValidator.waiterManyFinding
              (max 1 (Int.fdiv o.guests BusinessStandards.WAITER_RATIO_SIMPLE))
              (max 2 (Int.fdiv o.guests BusinessStandards.WAITER_RATIO_COMPLEX))
          else ServiceValidator.waiterOkFinding ]) := by
  constructor
  · intro h
    simp only [ServiceValidator.validate, h]
    rfl
  · intro h
    simp only [ServiceValidator.validate, if_pos h]
    split_ifs <;> rfl

/-- C9 witness: a service list with no waiter entry yields no finding; 2
waiters for 30 guests is within `[max 1 1, max 2 2]`, hence the INFO
finding. -/
theorem c9_service_staffing_witness :
    ServiceValidator.validate { services := [{ name := "Доставка", quantity := 1 }] } = [] ∧
    ServiceValidator.validate
        { guests := 30, services := [{ name := "Официант", quantity := 2 }] } =
      [ if ServiceValidator.waiterCount [{ name := "Официант", quantity := 2 }] <
            max 1 (Int.fdiv 30 BusinessStandards.WAITER_RATIO_SIMPLE) then
          ServiceValidator.waiterFewFinding
            (max 1 (Int.fdiv 30 BusinessStandards.WAITER_RATIO_SIMPLE))
        else if max 2 (Int.fdiv 30 BusinessStandards.WAITER_RATIO_COMPLEX) <
            ServiceValidator.waiterCount [{ name := "Официант", quantity := 2 }] then
          ServiceValidator.waiterManyFinding
            (max 1 (Int.fdiv 30 BusinessStandards.WAITER_RATIO_SIMPLE))
            (max 2 (Int.fdiv 30 BusinessStandards.WAITER_RATIO_COMPLEX))
        else ServiceValidator.waiterOkFinding ] :=
  ⟨(c9_service_staffing { services := [{ name := "Доставка", quantity := 1 }] }).1 (by decide),
   (c9_service_staffing
      { guests := 30, services := [{ name := "Официант", quantity := 2 }] }).2 (by decide)⟩

/-- C2: when the findings carry no CRITICAL and no ERROR but at least one
WARNING, the overall status is `"warning"` exactly when some WARNING
finding's field lies in `{portion_size, total_cost, waiter_count}`, and
`"valid"` otherwise. -/
theorem c2_two_tier_warning (vs : List ValidationResult)
    (hc : ∀ v ∈ vs, v.level ≠ ValidationLevel.critical)
    (he : ∀ v ∈ vs, v.level ≠ ValidationLevel.error)
    (hw : ∃ v ∈ vs, v.level = ValidationLevel.warning) :
    determine_overall_status vs =
      if ∃ v ∈ vs, v.level = ValidationLevel.warning ∧ v.field ∈ criticalWarningFields
      then "warning" else "valid" := by
  have hcb : vs.any (fun v => v.level == ValidationLevel.critical) = false := by
    simp only [List.any_eq_false, beq_iff_eq]
    exact hc
  have heb : vs.any (fun v => v.level == ValidationLevel.error) = false := by
    simp only [List.any_eq_false, beq_iff_eq]
    exact he
  have hwb : vs.any (fun v => v.level == ValidationLevel.warning) = true := by
    simp only [List.any_eq_true, beq_iff_eq]
    exact hw
  unfold determine_overall_status
  rw [hcb, hwb, heb]
  simp only [Bool.false_eq_true, if_false, if_true]
  by_cases hx : ∃ v ∈ vs, v.level = ValidationLevel.warning ∧ v.field ∈ criticalWarningFields
  · rw [if_pos hx]
    have : ((vs.filter fun v => v.level == ValidationLevel.warning).map
        ValidationResult.field).any (fun f => criticalWarningFields.contains f) = true := by
      obtain ⟨v, hv, hl, hf⟩ := hx
      simp only [List.any_eq_true, List.mem_map, List.mem_filter, beq_iff_eq]
      exact ⟨v.field, ⟨v, ⟨hv, hl⟩, rfl⟩, List.elem_eq_true_of_mem hf⟩
    rw [this]
    rfl
  · rw [if_neg hx]
    have : ((vs.filter fun v => v.level == ValidationLevel.warning).map
        ValidationResult.field).any (fun f => criticalWarningFields.contains f) = false := by
      simp only [List.any_eq_false, List.mem_map, List.mem_filter, beq_iff_eq]
      rintro f ⟨v, ⟨hv, hl⟩, rfl⟩ hcont
      exact hx ⟨v, hv, hl, List.mem_of_elem_eq_true hcont⟩
    rw [this]
    rfl

/-- C2 witness: a single WARNING on `"portion_size"` (a critical field)
downgrades the overall status to `"warning"`. -/
theorem c2_two_tier_warning_witness :
    determine_overall_status
        [{ level := .warning, field := "portion_size" }] =
      if ∃ v ∈ [({ level := .warning, field := "portion_size" } : ValidationResult)],
          v.level = ValidationLevel.warning ∧ v.field ∈ criticalWarningFields
      then "warning" else "valid" :=
  c2_two_tier_warning [{ level := .warning, field := "portion_size" }]
    (by decide) (by decide) (by decide)

/-- C3: for positive guests, `PortionValidator` emits exactly one finding by
first-match priority on `grams_per_guest = total_weight / guests`
(< 250 → CRITICAL; > 750 → WARNING; within the event type's standard range
→ INFO; otherwise WARNING), and at exactly 250 and exactly 750 the result
is the in-bounds INFO/range-WARNING classification — neither the CRITICAL
branch nor the > 750 WARNING branch — regardless of event type. -/
theorem c3_portion_priority (o : Order) (h : 0 < o.guests) :
    (PortionValidator.validate o =
      [ if o.total_weight / (o.guests : ℚ) < 250 then
          PortionValidator.portionCriticalFinding
        else if o.total_weight / (o.guests : ℚ) > 750 then
          PortionValidator.portionTooMuchFinding
        else if ((portionStandardFor o.event_type).min : ℚ) ≤ o.total_weight / (o.guests : ℚ) ∧
            o.total_weight / (o.guests : ℚ) ≤ ((portionStandardFor o.event_type).max : ℚ) then
          PortionValidator.portionInfoFinding
        else
          PortionValidator.portionRangeWarningFinding (portionStandardFor o.event_type) ]) ∧
    (o.total_weight / (o.guests : ℚ) = 250 ∨ o.total_weight / (o.guests : ℚ) = 750 →
      PortionValidator.validate o =
        [ if ((portionStandardFor o.event_type).min : ℚ) ≤ o.total_weight / (o.guests : ℚ) ∧
              o.total_weight / (o.guests : ℚ) ≤ ((portionStandardFor o.event_type).max : ℚ) then
            PortionValidator.portionInfoFinding
          else
            PortionValidator.portionRangeWarningFinding (portionStandardFor o.event_type) ]) := by
  have hmain : PortionValidator.validate o =
      [ if o.total_weight / (o.guests : ℚ) < 250 then
          PortionValidator.portionCriticalFinding
        else if o.total_weight / (o.guests : ℚ) > 750 then
          PortionValidator.portionTooMuchFinding
        else if ((portionStandardFor o.event_type).min : ℚ) ≤ o.total_weight / (o.guests : ℚ) ∧
            o.total_weight / (o.guests : ℚ) ≤ ((portionStandardFor o.event_type).max : ℚ) then
          PortionValidator.portionInfoFinding
        else
          PortionValidator.portionRangeWarningFinding (portionStandardFor o.event_type) ] := by
    simp only [PortionValidator.validate, if_neg (not_le.mpr h)]
    split_ifs <;> rfl
  refine ⟨hmain, ?_⟩
  intro hg
  rw [hmain]
  rcases hg with h1 | h1 <;> rw [h1] <;> norm_num

/-- C3 witness: 3000 g for 10 guests gives 300 g/guest, inside the buffet
standard range, hence the single INFO finding. -/
theorem c3_portion_priority_witness :
    PortionValidator.validate { guests := 10, total_weight := 3000 } =
      [PortionValidator.portionInfoFinding] := by
  have h := (c3_portion_priority { guests := 10, total_weight := 3000 } (by decide)).1
  rw [h]
  have hb : ("buffet" == "coffee_break") = false := by decide
  norm_num [portionStandardFor, BusinessStandards.PORTION_STANDARDS,
    BusinessStandards.buffetPortion, List.lookup, hb]

lemma portion_validate_length (o : Order) :
    (PortionValidator.validate o).length ≤ 1 := by
  simp only [PortionValidator.validate]
  split_ifs <;> simp

lemma cost_validate_length (o : Order) :
    (CostValidator.validate o).length ≤ 1 := by
  simp only [CostValidator.validate]
  split_ifs <;> simp

lemma service_validate_length (o : Order) :
    (ServiceValidator.validate o).length ≤ 1 := by
  simp only [ServiceValidator.validate]
  split_ifs <;> simp

lemma timing_validate_length (now : ℚ) (o : Order) :
    (TimingValidator.validate now o).length ≤ 1 := by
  rcases o with ⟨g, et, d, tw, tc, mi, sv⟩
  cases d <;> simp only [TimingValidator.validate] <;>
    first
    | (split_ifs <;> simp)
    | simp

lemma menu_validate_length (o : Order) :
    (MenuValidator.validate o).length ≤ 1 := by
  simp only [MenuValidator.validate]
  split_ifs <;> simp

lemma runValidators_length (now : ℚ) (o : Order) :
    (runValidators now o).length ≤ 5 := by
  have h1 := portion_validate_length o
  have h2 := cost_validate_length o
  have h3 := service_validate_length o
  have h4 := timing_validate_length now o
  have h5 := menu_validate_length o
  simp only [runValidators, List.length_append]
  omega

lemma recsPhase1_length (vs : List ValidationResult) : ∀ acc : List String,
    (recsPhase1 vs acc).length ≤
      acc.length + vs.countP
        (fun v => v.level == ValidationLevel.critical || v.level == ValidationLevel.error) := by
  induction vs with
  | nil => intro acc; simp [recsPhase1]
  | cons v vs ih =>
    intro acc
    rw [recsPhase1, List.countP_cons]
    by_cases hc : ((v.level == ValidationLevel.critical || v.level == ValidationLevel.error)
        && pyTruthy v.recommendation) = true
    · rw [if_pos hc]
      have hc' := hc
      rw [Bool.and_eq_true] at hc'
      have hp : (v.level == ValidationLevel.critical || v.level == ValidationLevel.error) = true :=
        hc'.1
      have := ih (acc ++ [v.recommendation.getD ""])
      simp only [List.length_append, List.length_singleton] at this
      simp only [hp, if_pos]
      omega
    · rw [if_neg hc]
      have := ih acc
      split_ifs <;> omega

lemma recsPhase2_length (vs : List ValidationResult) : ∀ acc : List String,
    (recsPhase2 vs acc).length ≤
      acc.length + vs.countP (fun v => v.level == ValidationLevel.warning) := by
  induction vs with
  | nil => intro acc; simp [recsPhase2]
  | cons v vs ih =>
    intro acc
    rw [recsPhase2, List.countP_cons]
    by_cases hc : (v.level == ValidationLevel.warning && pyTruthy v.recommendation
        && !(acc.contains (v.recommendation.getD ""))) = true
    · rw [if_pos hc]
      have hc' := hc
      rw [Bool.and_eq_true, Bool.and_eq_true] at hc'
      have hp : (v.level == ValidationLevel.warning) = true := hc'.1.1
      have := ih (acc ++ [v.recommendation.getD ""])
      simp only [List.length_append, List.length_singleton] at this
      simp only [hp, if_pos]
      omega
    · rw [if_neg hc]
      have := ih acc
      split_ifs <;> omega

lemma countP_level_partition (vs : List ValidationResult) :
    vs.countP (fun v => v.level == ValidationLevel.critical || v.level == ValidationLevel.error) +
      vs.countP (fun v => v.level == ValidationLevel.warning) ≤ vs.length := by
  induction vs with
  | nil => simp
  | cons v vs ih =>
    rcases v with ⟨l, f, r, rc⟩
    cases l <;> simp [List.countP_cons] <;> omega

lemma preTruncationRecs_length (vs : List ValidationResult) :
    (preTruncationRecs vs).length ≤ vs.length := by
  unfold preTruncationRecs
  have h1 := recsPhase1_length vs []
  have h2 := recsPhase2_length vs (recsPhase1 vs [])
  have h3 := countP_level_partition vs
  simp only [List.length_nil] at h1
  omega

/-- C10: each of the five validators emits at most one finding, so every
Report has `summary.total_validations ≤ 5`, and the pre-truncation
recommendation list already has at most 5 entries — the `[:5]` truncation
discards nothing. -/
theorem c10_at_most_five (now : ℚ) (o : Order) :
    (PortionValidator.validate o).length ≤ 1 ∧
    (CostValidator.validate o).length ≤ 1 ∧
    (ServiceValidator.validate o).length ≤ 1 ∧
    (TimingValidator.validate now o).length ≤ 1 ∧
    (MenuValidator.validate o).length ≤ 1 ∧
    (validate_order now o).summary.total_validations ≤ 5 ∧
    (validate_order now o).recommendations = preTruncationRecs (runValidators now o) := by
  refine ⟨portion_validate_length o, cost_validate_length o, service_validate_length o,
    timing_validate_length now o, menu_validate_length o, runValidators_length now o, ?_⟩
  show generate_recommendations (runValidators now o) = _
  unfold generate_recommendations
  exact List.take_of_length_le
    (le_trans (preTruncationRecs_length _) (runValidators_length now o))

/-- Warning-phase fold from the spec wording of the recommendation rule
(claim-side definition, for comparison with `recsPhase2`): append each
WARNING finding's recommendation unless already present. -/
def specPhase2 : List ValidationResult → List String → List String
  | [], acc => acc
  | v :: vs, acc =>
      specPhase2 vs
        (match v.recommendation with
         | some r => if acc.contains r then acc else acc ++ [r]
         | none => acc)

/-- The recommendation list as the spec words it: recommendations of all
CRITICAL/ERROR findings in order (skipping null/absent ones), then the
recommendations of WARNING findings not already present, truncated to 5
(claim-side definition, for comparison with `generate_recommendations`). -/
def specRecommendations (vs : List ValidationResult) : List String :=
  (specPhase2 (vs.filter fun v => v.level == ValidationLevel.warning)
    ((vs.filter fun v =>
        v.level == ValidationLevel.critical || v.level == ValidationLevel.error).filterMap
      ValidationResult.recommendation)).take 5

lemma append_ne_empty (a b : String) (h : a ≠ "") : a ++ b ≠ "" := by
  intro hab
  apply h
  have hd : (a ++ b).data = ([] : List Char) := by rw [hab]
  rw [String.data_append] at hd
  exact String.ext (by simpa using (List.append_eq_nil.mp hd).1)

lemma portion_rec_truthy (o : Order) :
    ∀ v ∈ PortionValidator.validate o, v.recommendation ≠ some "" := by
  intro v hv
  simp only [PortionValidator.validate] at hv
  split_ifs at hv <;> simp only [List.mem_singleton] at hv <;> subst hv
  · decide
  · decide
  · decide
  · decide
  · intro h
    simp only [PortionValidator.portionRangeWarningFinding, Option.some.injEq] at h
    revert h
    unfold PortionValidator.portionRangeRec
    apply append_ne_empty
    apply append_ne_empty
    apply append_ne_empty
    apply append_ne_empty
    decide

lemma cost_rec_truthy (o : Order) :
    ∀ v ∈ CostValidator.validate o, v.recommendation ≠ some "" := by
  intro v hv
  simp only [CostValidator.validate] at hv
  split_ifs at hv <;>
    simp only [List.mem_singleton, List.not_mem_nil] at hv <;> subst hv
  · decide
  · intro h
    simp only [CostValidator.costLowFinding, Option.some.injEq] at h
    revert h
    apply append_ne_empty
    apply append_ne_empty
    apply append_ne_empty
    apply append_ne_empty
    decide
  · decide
  · decide

lemma service_rec_truthy (o : Order) :
    ∀ v ∈ ServiceValidator.validate o, v.recommendation ≠ some "" := by
  intro v hv
  simp only [ServiceValidator.validate] at hv
  split_ifs at hv <;>
    simp only [List.mem_singleton, List.not_mem_nil] at hv <;> subst hv
  · intro h
    simp only [ServiceValidator.waiterFewFinding, Option.some.injEq] at h
    revert h
    apply append_ne_empty
    apply append_ne_empty
    decide
  · intro h
    simp only [ServiceValidator.waiterManyFinding, Option.some.injEq] at h
    revert h
    apply append_ne_empty
    apply append_ne_empty
    apply append_ne_empty
    decide
  · decide

lemma timing_rec_truthy (now : ℚ) (o : Order) :
    ∀ v ∈ TimingValidator.validate now o, v.recommendation ≠ some "" := by
  intro v hv
  rcases o with ⟨g, et, d, tw, tc, mi, sv⟩
  cases d <;> simp only [TimingValidator.validate] at hv
  · simp at hv
  · simp only [List.mem_singleton] at hv; subst hv; decide
  · split_ifs at hv <;> simp only [List.mem_singleton] at hv <;> subst hv <;> decide

lemma menu_rec_truthy (o : Order) :
    ∀ v ∈ MenuValidator.validate o, v.recommendation ≠ some "" := by
  intro v hv
  simp only [MenuValidator.validate] at hv
  split_ifs at hv <;> simp only [List.mem_singleton] at hv <;> subst hv <;> decide

lemma runValidators_rec_truthy (now : ℚ) (o : Order) :
    ∀ v ∈ runValidators now o, v.recommendation ≠ some "" := by
  intro v hv
  simp only [runValidators, List.mem_append] at hv
  rcases hv with ((((h | h) | h) | h) | h)
  · exact portion_rec_truthy o v h
  · exact cost_rec_truthy o v h
  · exact service_rec_truthy o v h
  · exact timing_rec_truthy now o v h
  · exact menu_rec_truthy o v h

lemma recsPhase1_eq_filterMap (vs : List ValidationResult)
    (hne : ∀ v ∈ vs, v.recommendation ≠ some "") : ∀ acc : List String,
    recsPhase1 vs acc =
      acc ++ (vs.filter fun v =>
        v.level == ValidationLevel.critical || v.level == ValidationLevel.error).filterMap
          ValidationResult.recommendation := by
  induction vs with
  | nil => intro acc; simp [recsPhase1]
  | cons v vs ih =>
    intro acc
    have hv := hne v (List.mem_cons_self _ _)
    have hvs : ∀ w ∈ vs, w.recommendation ≠ some "" :=
      fun w hw => hne w (List.mem_cons_of_mem _ hw)
    rw [recsPhase1, List.filter_cons]
    cases hr : v.recommendation with
    | none =>
      cases hl : (v.level == ValidationLevel.critical || v.level == ValidationLevel.error) <;>
        simp [pyTruthy, ih hvs, List.filterMap_cons, hr]
    | some s =>
      have hsf : (s == "") = false := by
        cases hb : (s == "") with
        | false => rfl
        | true => exact absurd (by rw [hr, eq_of_beq hb]) hv
      cases hl : (v.level == ValidationLevel.critical || v.level == ValidationLevel.error) <;>
        simp [pyTruthy, hsf, ih hvs, List.filterMap_cons, hr, List.append_assoc]

lemma recsPhase2_eq_specPhase2 (vs : List ValidationResult)
    (hne : ∀ v ∈ vs, v.recommendation ≠ some "") : ∀ acc : List String,
    recsPhase2 vs acc =
      specPhase2 (vs.filter fun v => v.level == ValidationLevel.warning) acc := by
  induction vs with
  | nil => intro acc; simp [recsPhase2, specPhase2]
  | cons v vs ih =>
    intro acc
    have hv := hne v (List.mem_cons_self _ _)
    have hvs : ∀ w ∈ vs, w.recommendation ≠ some "" :=
      fun w hw => hne w (List.mem_cons_of_mem _ hw)
    rw [recsPhase2, List.filter_cons]
    cases hr : v.recommendation with
    | none =>
      cases hl : (v.level == ValidationLevel.warning) <;>
        simp [pyTruthy, ih hvs, specPhase2, hr]
    | some s =>
      have hsf : (s == "") = false := by
        cases hb : (s == "") with
        | false => rfl
        | true => exact absurd (by rw [hr, eq_of_beq hb]) hv
      cases hl : (v.level == ValidationLevel.warning) <;>
        cases hm : acc.contains s <;>
        simp [pyTruthy, hsf, hm, ih hvs, specPhase2, hr]

/-- C7: for every order, the Report's recommendations are exactly the
spec-worded aggregation — CRITICAL/ERROR recommendations in finding order
(skipping absent ones), then not-yet-present WARNING recommendations in
finding order, truncated to 5 — and the list never exceeds 5 entries. -/
theorem c7_recommendations (now : ℚ) (o : Order) :
    (validate_order now o).recommendations = specRecommendations (runValidators now o) ∧
    (validate_order now o).recommendations.length ≤ 5 := by
  have hne := runValidators_rec_truthy now o
  constructor
  · show generate_recommendations (runValidators now o) = _
    unfold generate_recommendations preTruncationRecs specRecommendations
    rw [recsPhase1_eq_filterMap _ hne, recsPhase2_eq_specPhase2 _ hne]
    simp
  · show (generate_recommendations (runValidators now o)).length ≤ 5
    unfold generate_recommendations
    simp [List.length_take]

/-- Scenario C exactly as the claim words it: guests 30, buffet, weight
10500, cost 75000, two menu categories, one service literally named
`"Waiter"` with quantity 2. -/
def scenarioCOrderLiteral : Order :=
  { guests := 30, event_type := "buffet", total_weight := 10500, total_cost := 75000,
    menu_items := [{ category := "закуски" }, { category := "горячее" }],
    services := [{ name := "Waiter", quantity := 2 }] }

/-- Scenario C with the service named `"Официант"`, i.e. carrying the
substring the waiter detection actually matches. -/
def scenarioCOrderFixed : Order :=
  { guests := 30, event_type := "buffet", total_weight := 10500, total_cost := 75000,
    menu_items := [{ category := "закуски" }, { category := "горячее" }],
    services := [{ name := "Официант", quantity := 2 }] }

lemma portion_scenarioC_literal :
    PortionValidator.validate scenarioCOrderLiteral = [PortionValidator.portionInfoFinding] := by
  have hb : ("buffet" == "coffee_break") = false := by decide
  norm_num [PortionValidator.validate, scenarioCOrderLiteral, portionStandardFor,
    BusinessStandards.PORTION_STANDARDS, BusinessStandards.buffetPortion, List.lookup, hb]

lemma portion_scenarioC_fixed :
    PortionValidator.validate scenarioCOrderFixed = [PortionValidator.portionInfoFinding] := by
  have hb : ("buffet" == "coffee_break") = false := by decide
  norm_num [PortionValidator.validate, scenarioCOrderFixed, portionStandardFor,
    BusinessStandards.PORTION_STANDARDS, BusinessStandards.buffetPortion, List.lookup, hb]

lemma cost_scenarioC_literal :
    CostValidator.validate scenarioCOrderLiteral = [CostValidator.costInfoFinding] := by
  have hb : ("buffet" == "coffee_break") = false := by decide
  norm_num [CostValidator.validate, scenarioCOrderLiteral, costRangeFor,
    BusinessStandards.COST_PER_GUEST_RANGES, BusinessStandards.buffetCostRange,
    BusinessStandards.MIN_ORDER_AMOUNT, List.lookup, hb]

lemma cost_scenarioC_fixed :
    CostValidator.validate scenarioCOrderFixed = [CostValidator.costInfoFinding] := by
  have hb : ("buffet" == "coffee_break") = false := by decide
  norm_num [CostValidator.validate, scenarioCOrderFixed, costRangeFor,
    BusinessStandards.COST_PER_GUEST_RANGES, BusinessStandards.buffetCostRange,
    BusinessStandards.MIN_ORDER_AMOUNT, List.lookup, hb]

lemma runValidators_scenarioC_literal :
    runValidators 0 scenarioCOrderLiteral =
      [PortionValidator.portionInfoFinding, CostValidator.costInfoFinding,
       MenuValidator.varietyInfoFinding] := by
  have hs : ServiceValidator.validate scenarioCOrderLiteral = [] := by decide
  have hm : MenuValidator.validate scenarioCOrderLiteral = [MenuValidator.varietyInfoFinding] := by
    decide
  rw [runValidators, portion_scenarioC_literal, cost_scenarioC_literal, hs, hm]
  rfl

lemma runValidators_scenarioC_fixed :
    runValidators 0 scenarioCOrderFixed =
      [PortionValidator.portionInfoFinding, CostValidator.costInfoFinding,
       ServiceValidator.waiterOkFinding, MenuValidator.varietyInfoFinding] := by
  have hs : ServiceValidator.validate scenarioCOrderFixed =
      [ServiceValidator.waiterOkFinding] := by decide
  have hm : MenuValidator.validate scenarioCOrderFixed = [MenuValidator.varietyInfoFinding] := by
    decide
  rw [runValidators, portion_scenarioC_fixed, cost_scenarioC_fixed, hs, hm]
  rfl

/-- C4 counterexample: on the claim's literal input — the service named
`"Waiter"`, which does not contain the matched substring `"официант"` —
the waiter count is 0, `ServiceValidator` emits nothing, and the Report's
`by_level` has `info = 3`, refuting the claimed `info ≥ 4`. -/
theorem c4_counterexample :
    (validate_order 0 scenarioCOrderLiteral).summary.by_level.lookup "info" = some 3 ∧
    ServiceValidator.validate scenarioCOrderLiteral = [] ∧
    ¬ (4 ≤ 3) := by
  refine ⟨?_, by decide, by decide⟩
  show (count_by_level (runValidators 0 scenarioCOrderLiteral)).lookup "info" = some 3
  rw [runValidators_scenarioC_literal]
  rfl

/-- C4 amended: scenario C behaves as claimed once the service entry carries
the waiter keyword (name `"Официант"`, quantity 2): every emitted finding
is INFO, `overall_status = "valid"`, and `by_level` is
`info = 4, warning = error = critical = 0`. -/
theorem c4_amended_scenarioC :
    (∀ v ∈ runValidators 0 scenarioCOrderFixed, v.level = ValidationLevel.info) ∧
    (validate_order 0 scenarioCOrderFixed).overall_status = "valid" ∧
    (validate_order 0 scenarioCOrderFixed).summary.by_level =
      [("info", 4), ("warning", 0), ("error", 0), ("critical", 0)] := by
  refine ⟨?_, ?_, ?_⟩
  · rw [runValidators_scenarioC_fixed]
    decide
  · show determine_overall_status (runValidators 0 scenarioCOrderFixed) = "valid"
    rw [runValidators_scenarioC_fixed]
    rfl
  · show count_by_level (runValidators 0 scenarioCOrderFixed) = _
    rw [runValidators_scenarioC_fixed]
    rfl

/-- C1 witness at a concrete exception string. -/
theorem c1_exception_boundary_witness :
    (validateOrderAux (Except.error "ValueError")).overall_status = "error" :=
  (c1_exception_boundary "ValueError").1

/-- C5 witness at a concrete order (all defaults) and exception string. -/
theorem c5_by_level_keys_witness :
    (validate_order 0 {}).summary.by_level.map Prod.fst =
      ["info", "warning", "error", "critical"] :=
  (c5_by_level_keys 0 {} "e").1

/-- C6 witness at a concrete validator outcome. -/
theorem c6_summary_consistency_witness :
    sumByLevel (validateOrderAux (Except.ok [])).summary.by_level =
      (validateOrderAux (Except.ok [])).summary.total_validations :=
  (c6_summary_consistency (Except.ok [])).2

/-- C7 witness at a concrete order (all defaults). -/
theorem c7_recommendations_witness :
    (validate_order 0 {}).recommendations.length ≤ 5 :=
  (c7_recommendations 0 {}).2

/-- C10 witness at a concrete order (all defaults). -/
theorem c10_at_most_five_witness :
    (validate_order 0 {}).summary.total_validations ≤ 5 :=
  (c10_at_most_five 0 {}).2.2.2.2.2.1
